import Mathlib

/-!
Verification development for the Pyrestile order-reconciliation gateway.

The Python sources are shallowly embedded:
- `src/models.py`  : the three order tables (`BaseOrderVP`, `BaseOrderMG`, `BaseOrderJM`)
  become Lean structures, and the database becomes a `Store` of three row lists.
- `src/database.py`: `DatabaseManager`'s CRUD methods become pure Lean functions on `Store`.
- `src/req_methods.py`: the order-creation request helpers become functions of the
  HTTP response they would receive, returning the updated store and a tagged result.
- `src/main.py`    : `skyshop_api`, `service_create_order` and one iteration of the
  `check_order_status` loop become pure functions; the network side of a provider
  `check_order` call is an oracle argument (`String → Except String Json`), where
  `Except.error` models a raised Python exception.

JSON values are modelled by the inductive `Json`; Python dict/field access and
truthiness are reproduced by `Json.lookupKey`, `Json.getKey` and `pyTruthy`.
-/

namespace Pyrestile

/-- A JSON value, as produced by `response.json()` in `req_methods.py`.
Objects keep their key order (Python dicts are insertion ordered; keys are unique). -/
inductive Json where
  | null : Json
  | b : Bool → Json
  | i : Int → Json
  | s : String → Json
  | arr : List Json → Json
  | obj : List (String × Json) → Json
deriving Repr

/-- Association-list lookup used for Python dict indexing (first matching key). -/
def Json.lookupKey : List (String × Json) → String → Option Json
  | [], _ => none
  | (k, v) :: rest, key => if k = key then some v else Json.lookupKey rest key

/-- `d.get(key)` / `d[key]` on a JSON object; `none` both for a missing key and
for a non-object receiver (call sites distinguish the two where the Python
exception behaviour differs). -/
def Json.getKey (j : Json) (key : String) : Option Json :=
  match j with
  | Json.obj l => Json.lookupKey l key
  | _ => none

/-- Python truthiness of a JSON value (`None`, `False`, `0`, `""`, `[]`, `\x7b\x7d`
are falsy), as used by `if not all([...])` and `orderData.get("result")` checks. -/
def pyTruthy : Json → Bool
  | Json.null => false
  | Json.b bv => bv
  | Json.i n => n != 0
  | Json.s str => str ≠ ""
  | Json.arr l => !l.isEmpty
  | Json.obj l => !l.isEmpty

/-- Python `x == True`, the success discriminator test in `req_methods.py`
(`data["result"] == True`, `data["status"] == True`); in Python `1 == True`. -/
def pyEqTrue : Json → Bool
  | Json.b bv => bv
  | Json.i n => n == 1
  | _ => false

mutual
/-- `json.dumps` as used for `order_details` (default separators; string
escaping beyond quoting is not needed for the values handled here). -/
def Json.dumps : Json → String
  | Json.null => "null"
  | Json.b true => "true"
  | Json.b false => "false"
  | Json.i n => toString n
  | Json.s str => "\"" ++ str ++ "\""
  | Json.arr l => "[" ++ Json.dumpsArr l ++ "]"
  | Json.obj l => "\x7b" ++ Json.dumpsObj l ++ "\x7d"

/-- Serialize the elements of a JSON array, comma-separated. -/
def Json.dumpsArr : List Json → String
  | [] => ""
  | [x] => Json.dumps x
  | x :: rest => Json.dumps x ++ ", " ++ Json.dumpsArr rest

/-- Serialize the members of a JSON object, comma-separated. -/
def Json.dumpsObj : List (String × Json) → String
  | [] => ""
  | [(k, v)] => "\"" ++ k ++ "\": " ++ Json.dumps v
  | (k, v) :: rest => "\"" ++ k ++ "\": " ++ Json.dumps v ++ ", " ++ Json.dumpsObj rest
end

/-- A row of the `vp_orders` table (`models.py`, `BaseOrderVP`). -/
structure BaseOrderVP where
  id : Nat
  user_id : String
  zone_id : String
  quantity : Int
  price : String
  product : String
  api_name : String
  order_id : String
  email_user : String
  status : String
  order_details : String
deriving Repr, DecidableEq

/-- A row of the `mg_orders` table (`models.py`, `BaseOrderMG`). -/
structure BaseOrderMG where
  id : Nat
  user_id : String
  zone_id : String
  quantity : Int
  price : String
  product : String
  api_name : String
  order_id : String
  email_user : String
  status : String
  order_details : String
deriving Repr, DecidableEq

/-- A row of the `jm_orders` table (`models.py`, `BaseOrderJM`);
provider C rows carry an extra `message_id` column. -/
structure BaseOrderJM where
  id : Nat
  user_id : String
  zone_id : String
  quantity : Int
  price : String
  product : String
  api_name : String
  order_id : String
  message_id : String
  email_user : String
  status : String
  order_details : String
deriving Repr, DecidableEq

/-- The Order Store: the three provider tables of `models.py`. -/
structure Store where
  vp_orders : List BaseOrderVP
  mg_orders : List BaseOrderMG
  jm_orders : List BaseOrderJM
deriving Repr, DecidableEq

/-- The empty database. -/
def emptyStore : Store := ⟨[], [], []⟩

/-- `DatabaseManager.createOrderVP`: a plain `INSERT` appending one row
(the surrogate `id` is autoincremented; no uniqueness constraint on `order_id`). -/
def createOrderVP (db : Store) (user_id zone_id : String) (quantity : Int)
    (price product api_name order_id email_user status order_details : String) : Store :=
  { db with vp_orders := db.vp_orders ++
      [{ id := db.vp_orders.length + 1, user_id := user_id, zone_id := zone_id,
         quantity := quantity, price := price, product := product, api_name := api_name,
         order_id := order_id, email_user := email_user, status := status,
         order_details := order_details }] }

/-- `DatabaseManager.createOrderMG`: a plain `INSERT` appending one row. -/
def createOrderMG (db : Store) (user_id zone_id : String) (quantity : Int)
    (price product api_name order_id email_user status order_details : String) : Store :=
  { db with mg_orders := db.mg_orders ++
      [{ id := db.mg_orders.length + 1, user_id := user_id, zone_id := zone_id,
         quantity := quantity, price := price, product := product, api_name := api_name,
         order_id := order_id, email_user := email_user, status := status,
         order_details := order_details }] }

/-- `DatabaseManager.createOrderJM`: a plain `INSERT` appending one row with
`order_id` and `message_id`. -/
def createOrderJM (db : Store) (user_id zone_id : String) (quantity : Int)
    (price product api_name order_id message_id email_user status order_details : String) :
    Store :=
  { db with jm_orders := db.jm_orders ++
      [{ id := db.jm_orders.length + 1, user_id := user_id, zone_id := zone_id,
         quantity := quantity, price := price, product := product, api_name := api_name,
         order_id := order_id, message_id := message_id, email_user := email_user,
         status := status, order_details := order_details }] }

/-- `DatabaseManager.getOrderStatusVP`: `SELECT ... WHERE status = ?`. -/
def getOrderStatusVP (db : Store) (status : String) : List BaseOrderVP :=
  db.vp_orders.filter (fun r => r.status = status)

/-- `DatabaseManager.getOrderStatusMG`: `SELECT ... WHERE status = ?`. -/
def getOrderStatusMG (db : Store) (status : String) : List BaseOrderMG :=
  db.mg_orders.filter (fun r => r.status = status)

/-- `DatabaseManager.getOrderStatusJM`: `SELECT ... WHERE status = ?`. -/
def getOrderStatusJM (db : Store) (status : String) : List BaseOrderJM :=
  db.jm_orders.filter (fun r => r.status = status)

/-- `DatabaseManager.getOrderIdVP`: `fetch_one` on `order_id` (first match). -/
def getOrderIdVP (db : Store) (order_id : String) : Option BaseOrderVP :=
  db.vp_orders.find? (fun r => r.order_id = order_id)

/-- `DatabaseManager.getOrderIdJM`: `fetch_one` on `(order_id, message_id)`. -/
def getOrderIdJM (db : Store) (order_id message_id : String) : Option BaseOrderJM :=
  db.jm_orders.find? (fun r => r.order_id = order_id ∧ r.message_id = message_id)

/-- `DatabaseManager.updateOrderVP`: `UPDATE vp_orders SET ... WHERE order_id = ?`;
a `none` field is left unchanged (`status if status is not None else column`). -/
def updateOrderVP (db : Store) (order_id : String)
    (status new_order_details : Option String) : Store :=
  { db with vp_orders := db.vp_orders.map (fun r =>
      if r.order_id = order_id then
        { r with status := status.getD r.status,
                 order_details := new_order_details.getD r.order_details }
      else r) }

/-- `DatabaseManager.updateOrderMG`: `UPDATE mg_orders SET ... WHERE order_id = ?`. -/
def updateOrderMG (db : Store) (order_id : String)
    (status new_order_details : Option String) : Store :=
  { db with mg_orders := db.mg_orders.map (fun r =>
      if r.order_id = order_id then
        { r with status := status.getD r.status,
                 order_details := new_order_details.getD r.order_details }
      else r) }

/-- `DatabaseManager.updateOrderJM`: `UPDATE jm_orders SET ... WHERE order_id = ?
AND message_id = ?`. -/
def updateOrderJM (db : Store) (order_id message_id : String)
    (status new_order_details : Option String) : Store :=
  { db with jm_orders := db.jm_orders.map (fun r =>
      if r.order_id = order_id ∧ r.message_id = message_id then
        { r with status := status.getD r.status,
                 order_details := new_order_details.getD r.order_details }
      else r) }

/-- Number of `vp_orders` rows holding a given handle. -/
def countVP (db : Store) (order_id : String) : Nat :=
  (db.vp_orders.filter (fun r => r.order_id = order_id)).length

/-- Number of `mg_orders` rows holding a given handle. -/
def countMG (db : Store) (order_id : String) : Nat :=
  (db.mg_orders.filter (fun r => r.order_id = order_id)).length

/-- Number of `jm_orders` rows holding a given `(order_id, message_id)` handle. -/
def countJM (db : Store) (order_id message_id : String) : Nat :=
  (db.jm_orders.filter (fun r => r.order_id = order_id ∧ r.message_id = message_id)).length

/-- The HTTP reply a `req_methods.py` helper receives from its `client.post`
call: `response.status_code` and the value `response.json()` would produce. -/
structure HttpResponse where
  status_code : Nat
  body : Json

/-- The tagged value a creation helper returns to its caller. -/
inductive CreateResult where
  /-- The success path of `request_creating_order_vp` / `_mg`: the bare trxid. -/
  | ok : String → CreateResult
  /-- The success path of `request_creating_order_jm`: the `(order_id, message_id)` pair. -/
  | okJM : String → String → CreateResult
  /-- A business rejection: the dict with status `"warning"`, the given message,
  and the raw payload in `"data"`. -/
  | warning : String → Json → CreateResult
  /-- A non-200 transport reply: the dict with status `"error"`, message
  `"the request failed"`, carrying the response object. -/
  | httpError : Nat → CreateResult
  /-- The `except` branch: the dict with status `"exception"` and the stringified error. -/
  | exception : String → CreateResult
deriving Repr

/-- `request_creating_order_vp` (`req_methods.py` lines 9-57), as a function of the
provider's HTTP reply. On HTTP 200 with `data["result"] == True` it extracts
`data["data"]["trxid"]`, inserts a `"waiting"` row and returns the trxid; on
`result` not `True` it returns the warning dict; a missing key (or a trxid the
`String` column rejects) raises and is caught by the function's own `except`. -/
def request_creating_order_vp (db : Store) (resp : HttpResponse)
    (user_id zone_id email : String) (quantity : Int) (price product : String) :
    Store × CreateResult :=
  if resp.status_code = 200 then
    match resp.body.getKey "result" with
    | some r =>
      if pyEqTrue r then
        match (resp.body.getKey "data").bind (fun d => d.getKey "trxid") with
        | some (Json.s vp_trxid) =>
          (createOrderVP db user_id zone_id quantity price product "VIPAYMENT"
             vp_trxid email "waiting" (Json.dumps resp.body), CreateResult.ok vp_trxid)
        | _ => (db, CreateResult.exception "KeyError")
      else (db, CreateResult.warning "order creation failed" resp.body)
    | none => (db, CreateResult.exception "KeyError")
  else (db, CreateResult.httpError resp.status_code)

/-- `request_creating_order_mg` (`req_methods.py` lines 59-96). This helper has no
`try`/`except` of its own, so a raised exception propagates to the caller
(modelled by `Except.error`). On HTTP 200 with `data["status"] == True` it
extracts `data["account_details"]["order_id"]` and inserts a `"processing"` row. -/
def request_creating_order_mg (db : Store) (resp : HttpResponse)
    (user_id zone_id email : String) (quantity : Int) (price product : String) :
    Store × Except String CreateResult :=
  if resp.status_code = 200 then
    match resp.body.getKey "status" with
    | some st =>
      if pyEqTrue st then
        match (resp.body.getKey "account_details").bind (fun d => d.getKey "order_id") with
        | some (Json.s mg_trxid) =>
          (createOrderMG db user_id zone_id quantity price product "MOOGOLD"
             mg_trxid email "processing" (Json.dumps resp.body),
           Except.ok (CreateResult.ok mg_trxid))
        | _ => (db, Except.error "KeyError")
      else (db, Except.ok (CreateResult.warning "order creation failed" resp.body))
    | none => (db, Except.error "KeyError")
  else (db, Except.ok (CreateResult.httpError resp.status_code))

/-- `request_creating_order_jm` (`req_methods.py` lines 98-139). On HTTP 200 with
`data["code"] == "APPLY_SUCCESS"` it inserts a `"waiting"` row keyed by the
locally generated `(order_id, message_id)` and returns that pair; any other
`code` value (string or not) takes the warning branch. -/
def request_creating_order_jm (db : Store) (resp : HttpResponse)
    (order_id message_id user_id zone_id email : String) (quantity : Int)
    (price product : String) : Store × CreateResult :=
  if resp.status_code = 200 then
    match resp.body.getKey "code" with
    | some (Json.s c) =>
      if c = "APPLY_SUCCESS" then
        (createOrderJM db user_id zone_id quantity price product "JOLLYMAX"
           order_id message_id email "waiting" (Json.dumps resp.body),
         CreateResult.okJM order_id message_id)
      else (db, CreateResult.warning "order creation failed" resp.body)
    | some _ => (db, CreateResult.warning "order creation failed" resp.body)
    | none => (db, CreateResult.exception "KeyError")
  else (db, CreateResult.httpError resp.status_code)

/-! ## The reconciliation sweep (`check_order_status`, `main.py` lines 251-326)

One loop iteration is embedded as a pure function of the store and of three
check oracles giving, per handle, what the corresponding `Service*.check_order`
call returns (`Except.error` models an exception raised during that order's
check). The status extraction and vocabulary test performed on a check response
are factored into `*ExtractDecision`, which yields the `(status, order_details)`
pair to persist, or `none` when the sweep logs and skips (this covers the
unrecognized-status branch, the malformed-shape branches, and a `KeyError`
caught by the per-order `except`). -/

/-- The provider-A field path of `main.py` lines 266-268: the `status` field of
the first element of the response's `data` list (an empty list yields the empty
dict, whose missing `status` key raises). -/
def vpExtractedStatus (orderData : Json) : Option Json :=
  match orderData.getKey "data" with
  | some (Json.arr items) =>
    (match items with
     | [] => Json.obj []
     | x :: _ => x).getKey "status"
  | _ => none

/-- The provider-B field path of `main.py` line 289: top-level `order_status`. -/
def mgExtractedStatus (orderData : Json) : Option Json :=
  orderData.getKey "order_status"

/-- The provider-C field path of `main.py` line 309: `data.status`. -/
def jmExtractedStatus (orderData : Json) : Option Json :=
  match orderData.getKey "data" with
  | some (Json.obj dkvs) => Json.lookupKey dkvs "status"
  | _ => none

/-- The provider-A decision of `main.py` lines 266-279: require a truthy
`result` and a list-valued `data`, then persist the extracted status exactly
when it lies in `VP_STATUSES`, together with `json.dumps` of the raw response. -/
def vpExtractDecision (statuses : List String) (orderData : Json) : Option (String × String) :=
  match orderData.getKey "result", orderData.getKey "data" with
  | some r, some (Json.arr _) =>
    if pyTruthy r then
      match vpExtractedStatus orderData with
      | some (Json.s new_status) =>
        if new_status ∈ statuses then some (new_status, Json.dumps orderData) else none
      | _ => none
    else none
  | _, _ => none

/-- The provider-B decision of `main.py` lines 289-298: persist
`orderData.get("order_status")` exactly when it is a string in `MG_STATUSES`. -/
def mgExtractDecision (statuses : List String) (orderData : Json) : Option (String × String) :=
  match mgExtractedStatus orderData with
  | some (Json.s new_status) =>
    if new_status ∈ statuses then some (new_status, Json.dumps orderData) else none
  | _ => none

/-- The provider-C decision of `main.py` lines 309-319: persist
`orderData["data"].get("status")` exactly when it is a string in `JM_STATUSES`. -/
def jmExtractDecision (statuses : List String) (orderData : Json) : Option (String × String) :=
  match jmExtractedStatus orderData with
  | some (Json.s new_status) =>
    if new_status ∈ statuses then some (new_status, Json.dumps orderData) else none
  | _ => none

/-- One provider-A order of the sweep (`main.py` lines 261-282): a raised
exception is caught and the store left as is; otherwise the decision, if any,
is written back via `updateOrderVP` keyed by the order's `order_id`. -/
def processVPOrder (statuses : List String) (check : String → Except String Json)
    (db : Store) (o : BaseOrderVP) : Store :=
  match check o.order_id with
  | Except.error _ => db
  | Except.ok orderData =>
    match vpExtractDecision statuses orderData with
    | some (st, d) => updateOrderVP db o.order_id (some st) (some d)
    | none => db

/-- One provider-B order of the sweep (`main.py` lines 284-301). -/
def processMGOrder (statuses : List String) (check : String → Except String Json)
    (db : Store) (o : BaseOrderMG) : Store :=
  match check o.order_id with
  | Except.error _ => db
  | Except.ok orderData =>
    match mgExtractDecision statuses orderData with
    | some (st, d) => updateOrderMG db o.order_id (some st) (some d)
    | none => db

/-- One provider-C order of the sweep (`main.py` lines 303-322); the check and
the update are keyed by the pair `(order_id, message_id)`. -/
def processJMOrder (statuses : List String) (check : String → String → Except String Json)
    (db : Store) (o : BaseOrderJM) : Store :=
  match check o.order_id o.message_id with
  | Except.error _ => db
  | Except.ok orderData =>
    match jmExtractDecision statuses orderData with
    | some (st, d) => updateOrderJM db o.order_id o.message_id (some st) (some d)
    | none => db

/-- One iteration of `check_order_status` (`main.py` lines 255-322): the three
checkable-order snapshots are taken first (provider A `"waiting"`, provider B
`"processing"`, provider C `"waiting"`), then each snapshot is walked in order,
threading the store. -/
def checkOrderStatusSweep (vpStatuses mgStatuses jmStatuses : List String)
    (vpCheck : String → Except String Json) (mgCheck : String → Except String Json)
    (jmCheck : String → String → Except String Json) (db : Store) : Store :=
  let vp_orders := getOrderStatusVP db "waiting"
  let mg_orders := getOrderStatusMG db "processing"
  let jm_orders := getOrderStatusJM db "waiting"
  let db1 := vp_orders.foldl (processVPOrder vpStatuses vpCheck) db
  let db2 := mg_orders.foldl (processMGOrder mgStatuses mgCheck) db1
  jm_orders.foldl (processJMOrder jmStatuses jmCheck) db2

/-! ## The order-creation orchestrator and endpoint (`main.py` lines 126-249)

`service_create_order` is embedded with the downstream `Service*.create_order`
calls abstracted as oracles (each stands for the adapter applied to this
request's fields and the configured credentials; it transforms the store and
either returns a tagged result or raises). Externally visible actions are
recorded in an event trace, in program order. -/

/-- An externally visible action of the orchestrator. -/
inductive Event where
  /-- `send_message_order text`: the operator notification fan-out (`bot.py`
  lines 119-126), which swallows per-recipient failures and never raises. -/
  | notify : String → Event
  /-- Invocation of the named adapter's `create_order`. -/
  | adapterCreate : String → Event
deriving Repr, DecidableEq

/-- The three `Service*.create_order` calls as store transformers;
`Except.error` models a raised exception reaching `service_create_order`. -/
structure AdapterOracles where
  vpCreate : Store → Store × Except String CreateResult
  mgCreate : Store → Store × Except String CreateResult
  jmCreate : Store → Store × Except String CreateResult

/-- Python `str()` of a JSON value, for f-string interpolation (container
values are approximated by their JSON serialization). -/
def pyStr : Json → String
  | Json.null => "None"
  | Json.b true => "True"
  | Json.b false => "False"
  | Json.i n => toString n
  | Json.s str => str
  | j => Json.dumps j

/-- The new-order notification text of `main.py` lines 201, 216 and 231. -/
def newOrderMessage (serviceName product_name : String)
    (user_id quantity price : Json) : String :=
  "🪙 Новый заказ\n\n🌐Сервис платежа: " ++ serviceName ++ "\n🔵Название: "
    ++ product_name ++ "\n🪪Пользователь: " ++ pyStr user_id ++ "\n💎Количество: "
    ++ pyStr quantity ++ "\n💲Стоимость: " ++ pyStr price ++ " руб."

/-- The display name used in the notification text of each routing branch
(`main.py` lines 201, 216, 231). -/
def serviceNameOf : String → String
  | "VP" => "VIPayment"
  | "MG" => "Moogold"
  | "JM" => "JollyMax"
  | _ => ""

/-- What `service_create_order` hands back to `skyshop_api`: either the value
returned by the selected adapter, or a `JSONResponse` it built itself. -/
inductive SvcReturn where
  | value : CreateResult → SvcReturn
  | http : Nat → Json → SvcReturn
deriving Repr

/-- The `JSONResponse` content for the unrecognized-service-code branch
(`main.py` line 246): note it does not echo the offending code. -/
def invalidServiceCodeContent : Json :=
  Json.obj [("status", Json.s "error"), ("message", Json.s "Invalid service code")]

/-- `service_create_order` (`main.py` lines 184-249): a fixed three-way routing
on `service_code`; for a recognized code it first awaits the notification
fan-out, then invokes the selected adapter; an exception from the adapter is
caught and turned into a 500 `"create order"` response; an unrecognized code
performs nothing and yields the 400 `"Invalid service code"` response. -/
def service_create_order (adapters : AdapterOracles) (db : Store)
    (service_code product_code : String) (user_id zone_id email quantity price : Json)
    (product_name : String) : Store × List Event × SvcReturn :=
  let run := fun (serviceName : String) (create : Store → Store × Except String CreateResult) =>
    let text := newOrderMessage serviceName product_name user_id quantity price
    let res := create db
    (res.1, [Event.notify text, Event.adapterCreate service_code],
      match res.2 with
      | Except.ok v => SvcReturn.value v
      | Except.error e => SvcReturn.http 500 (Json.obj [("status", Json.s "error"),
          ("message", Json.s "create order"), ("data", Json.s e)]))
  if service_code = "VP" then run "VIPayment" adapters.vpCreate
  else if service_code = "MG" then run "Moogold" adapters.mgCreate
  else if service_code = "JM" then run "JollyMax" adapters.jmCreate
  else (db, [], SvcReturn.http 400 invalidServiceCodeContent)

/-- The reply `skyshop_api` produces for one request. -/
inductive ApiResult where
  /-- A `JSONResponse` whose content is fully determined by the request
  and the modelled state. -/
  | response : Nat → Json → ApiResult
  /-- The outer `except` branch (`main.py` lines 180-182): a 500
  `"request data"` response carrying `str(error)` of the raised exception. -/
  | requestDataError : ApiResult
  /-- The inner `except` branch (`main.py` lines 177-179): a 500
  `"create order"` response carrying `str(error)`; also reached when embedding
  a `JSONResponse` returned by `service_create_order` into the 200 wrapper
  raises at JSON serialization time. -/
  | createOrderError : ApiResult
deriving Repr

/-- The 400 validation response content: status `"error"`, the branch's
message, and the request body echoed in `"data"`. -/
def validationErrorContent (message : String) (body : Json) : Json :=
  Json.obj [("status", Json.s "error"), ("message", Json.s message), ("data", body)]

/-- The adapter return value as it appears in the 200 `"order created"`
wrapper (`main.py` line 176); payloads that are not JSON-serializable in
Python (the non-200 branch carries the response object) are not modelled,
and no theorem below evaluates this wrapper on them. -/
def createResultToJson : CreateResult → Json
  | CreateResult.ok t => Json.s t
  | CreateResult.okJM a b => Json.arr [Json.s a, Json.s b]
  | CreateResult.warning m d =>
    Json.obj [("status", Json.s "warning"), ("message", Json.s m), ("data", d)]
  | CreateResult.httpError code =>
    Json.obj [("status", Json.s "error"), ("message", Json.s "the request failed"),
      ("data", Json.i (Int.ofNat code))]
  | CreateResult.exception e =>
    Json.obj [("status", Json.s "exception"),
      ("message", Json.s "function error: (creating order)"), ("data", Json.s e)]

/-- `skyshop_api` (`main.py` lines 126-182) as a function of the parsed request
body. Branches that raise in Python before the inner `try` (a non-dict body, a
missing or non-dict `payment`, a non-list truthy `products`, a non-dict first
product, a non-string product name at `split`) fall to the outer `except` and
are `ApiResult.requestDataError`. -/
def skyshop_api (adapters : AdapterOracles) (db : Store) (body : Json) :
    Store × List Event × ApiResult :=
  match body with
  | Json.obj kvs =>
    match Json.lookupKey kvs "test" with
    | some v =>
      (db, [], ApiResult.response 200 (Json.obj [("status", Json.s "success"),
        ("message", Json.s "testing request successfully"),
        ("data", Json.obj [("test", v)])]))
    | none =>
      let user_id := (Json.lookupKey kvs "Input").getD Json.null
      let zone_id := (Json.lookupKey kvs "Zone_ID").getD Json.null
      let email := (Json.lookupKey kvs "Email").getD Json.null
      if ¬(pyTruthy user_id ∧ pyTruthy zone_id ∧ pyTruthy email) then
        (db, [], ApiResult.response 400 (validationErrorContent "missing parameters" body))
      else
        match Json.lookupKey kvs "payment" with
        | some (Json.obj pkvs) =>
          let products := (Json.lookupKey pkvs "products").getD (Json.arr [])
          if ¬ pyTruthy products then
            (db, [], ApiResult.response 400 (validationErrorContent "missing products" body))
          else
            match products with
            | Json.arr (first_product :: _) =>
              match first_product with
              | Json.obj fkvs =>
                let product_name_full := (Json.lookupKey fkvs "name").getD Json.null
                let quantity := (Json.lookupKey fkvs "quantity").getD Json.null
                let price := (Json.lookupKey fkvs "price").getD Json.null
                if ¬(pyTruthy product_name_full ∧ pyTruthy quantity ∧ pyTruthy price) then
                  (db, [], ApiResult.response 400
                    (validationErrorContent "missing product parameters" body))
                else
                  match product_name_full with
                  | Json.s name_str =>
                    match name_str.splitOn "+" with
                    | service_code :: product_code :: product_name :: _ =>
                      let res := service_create_order adapters db service_code
                        product_code user_id zone_id email quantity price product_name
                      (res.1, res.2.1,
                        match res.2.2 with
                        | SvcReturn.value v =>
                          ApiResult.response 200 (Json.obj [("status", Json.s "success"),
                            ("message", Json.s "order created"),
                            ("data", createResultToJson v)])
                        | SvcReturn.http _ _ => ApiResult.createOrderError)
                    | _ =>
                      (db, [], ApiResult.response 400
                        (validationErrorContent "missing product info" body))
                  | _ => (db, [], ApiResult.requestDataError)
              | _ => (db, [], ApiResult.requestDataError)
            | _ => (db, [], ApiResult.requestDataError)
        | _ => (db, [], ApiResult.requestDataError)
  | _ => (db, [], ApiResult.requestDataError)

/-! ## Concrete instances used to evaluate the theorems -/

/-- Adapter oracles that all raise: a provider outage. -/
def adaptersFail : AdapterOracles :=
  ⟨fun db => (db, Except.error "connect timeout"),
   fun db => (db, Except.error "connect timeout"),
   fun db => (db, Except.error "connect timeout")⟩

/-- An inbound body whose first product lacks the required `quantity` field
(all other required fields present). -/
def bodyMissingQuantity : Json :=
  Json.obj [("Input", Json.s "u1"), ("Zone_ID", Json.s "z1"), ("Email", Json.s "e@x.com"),
    ("payment", Json.obj [("products", Json.arr [Json.obj [("name", Json.s "MG+123+Gift Card"),
      ("price", Json.s "10.00")]])])]

/-- A one-row provider-A table in the checkable `"waiting"` state. -/
def vpRow0 : BaseOrderVP :=
  { id := 1, user_id := "u0", zone_id := "z0", quantity := 1, price := "5",
    product := "P", api_name := "VIPAYMENT", order_id := "VP-0",
    email_user := "e", status := "waiting", order_details := "d" }

/-- A store holding only `vpRow0`. -/
def storeVP0 : Store := ⟨[vpRow0], [], []⟩

/-- A one-row provider-B table in the checkable `"processing"` state. -/
def mgRow0 : BaseOrderMG :=
  { id := 1, user_id := "u1", zone_id := "z1", quantity := 1, price := "10.00",
    product := "Gift Card", api_name := "MOOGOLD", order_id := "MG-9",
    email_user := "e@x.com", status := "processing", order_details := "initial" }

/-- A store holding only `mgRow0`. -/
def storeMG0 : Store := ⟨[], [mgRow0], []⟩

/-- A provider-B check response whose `order_status` is `"completed"`. -/
def mgRespCompleted : Json :=
  Json.obj [("order_status", Json.s "completed"), ("order_id", Json.s "MG-9")]

/-- A check oracle answering every handle with `mgRespCompleted`. -/
def mgCheckCompleted : String → Except String Json :=
  fun _ => Except.ok mgRespCompleted

/-- `mgRow0` as the sweep should leave it after a `"completed"` check. -/
def mgRowDone : BaseOrderMG :=
  { mgRow0 with status := "completed", order_details := Json.dumps mgRespCompleted }

/-- A check oracle that raises on every handle. -/
def checkRaise : String → Except String Json :=
  fun _ => Except.error "connect timeout"

/-- A provider-C check oracle that raises on every handle. -/
def jmCheckRaise : String → String → Except String Json :=
  fun _ _ => Except.error "connect timeout"

/-- A provider-C check oracle answering with a `"completed"` `data.status`. -/
def jmCheckCompleted : String → String → Except String Json :=
  fun _ _ => Except.ok (Json.obj [("code", Json.s "APPLY_SUCCESS"),
    ("data", Json.obj [("status", Json.s "completed")])])

/-- A provider-C row with handle `("J1", "m1")`. -/
def jmRowA : BaseOrderJM :=
  { id := 1, user_id := "u1", zone_id := "z1", quantity := 1, price := "10.00",
    product := "Crystals", api_name := "JOLLYMAX", order_id := "J1", message_id := "m1",
    email_user := "e@x.com", status := "waiting", order_details := "da" }

/-- A provider-C row sharing `order_id` `"J1"` but with `message_id` `"m2"`. -/
def jmRowB : BaseOrderJM :=
  { id := 2, user_id := "u2", zone_id := "z2", quantity := 1, price := "20.00",
    product := "Crystals", api_name := "JOLLYMAX", order_id := "J1", message_id := "m2",
    email_user := "f@x.com", status := "waiting", order_details := "db" }

/-- A store holding the two same-`order_id` provider-C rows. -/
def storeJM2 : Store := ⟨[], [], [jmRowA, jmRowB]⟩

/-! ## General fold lemmas -/

/-- A fold whose step leaves a projection unchanged leaves it unchanged. -/
theorem foldl_proj_eq {α β γ : Type} (f : γ → α → γ) (proj : γ → β)
    (hf : ∀ d x, proj (f d x) = proj d) :
    ∀ (l : List α) (d : γ), proj (List.foldl f d l) = proj d := by
  intro l
  induction l with
  | nil => intro d; rfl
  | cons x xs ih => intro d; rw [List.foldl_cons, ih, hf]

/-- A fold whose step preserves a predicate preserves it. -/
theorem foldl_pred_preserve {α γ : Type} (f : γ → α → γ) (P : γ → Prop)
    (hf : ∀ d x, P d → P (f d x)) :
    ∀ (l : List α) (d : γ), P d → P (List.foldl f d l) := by
  intro l
  induction l with
  | nil => intro d h; exact h
  | cons x xs ih => intro d h; exact ih (f d x) (hf d x h)

/-- If some element of the list establishes a predicate from any state, and
every step preserves it, the fold over the list establishes it. -/
theorem foldl_pred_establish {α γ : Type} (f : γ → α → γ) (P : γ → Prop) (x : α)
    (hpres : ∀ d y, P d → P (f d y)) (hest : ∀ d, P (f d x)) :
    ∀ (l : List α) (d : γ), x ∈ l → P (List.foldl f d l) := by
  intro l
  induction l with
  | nil => intro d hx; cases hx
  | cons y ys ih =>
    intro d hx
    rcases List.mem_cons.mp hx with h | h
    · rw [List.foldl_cons, ← h]
      exact foldl_pred_preserve f P hpres ys (f d x) (hest d)
    · exact ih (f d y) h

/-- A fold whose step's effect on a projection depends only on that projection
sends projection-equal states to projection-equal states. -/
theorem foldl_proj_congr {α β γ : Type} (f : γ → α → γ) (proj : γ → β)
    (hcong : ∀ d d' x, proj d = proj d' → proj (f d x) = proj (f d' x)) :
    ∀ (l : List α) (d d' : γ), proj d = proj d' →
      proj (List.foldl f d l) = proj (List.foldl f d' l) := by
  intro l
  induction l with
  | nil => intro d d' h; exact h
  | cons x xs ih => intro d d' h; exact ih (f d x) (f d' x) (hcong d d' x h)

/-! ## Step lemmas: which tables each per-order step can touch -/

/-- A provider-A step never touches the `mg_orders` table. -/
theorem processVPOrder_mg_orders (vs : List String) (c : String → Except String Json)
    (db : Store) (o : BaseOrderVP) : (processVPOrder vs c db o).mg_orders = db.mg_orders := by
  unfold processVPOrder
  split
  · rfl
  · split
    · rfl
    · rfl

/-- A provider-A step never touches the `jm_orders` table. -/
theorem processVPOrder_jm_orders (vs : List String) (c : String → Except String Json)
    (db : Store) (o : BaseOrderVP) : (processVPOrder vs c db o).jm_orders = db.jm_orders := by
  unfold processVPOrder
  split
  · rfl
  · split
    · rfl
    · rfl

/-- A provider-B step never touches the `jm_orders` table. -/
theorem processMGOrder_jm_orders (ms : List String) (c : String → Except String Json)
    (db : Store) (o : BaseOrderMG) : (processMGOrder ms c db o).jm_orders = db.jm_orders := by
  unfold processMGOrder
  split
  · rfl
  · split
    · rfl
    · rfl

/-- A provider-C step never touches the `mg_orders` table. -/
theorem processJMOrder_mg_orders (js : List String) (c : String → String → Except String Json)
    (db : Store) (o : BaseOrderJM) : (processJMOrder js c db o).mg_orders = db.mg_orders := by
  unfold processJMOrder
  split
  · rfl
  · split
    · rfl
    · rfl

/-- A provider-B step's effect on `mg_orders` depends only on `mg_orders`. -/
theorem processMGOrder_mg_congr (ms : List String) (c : String → Except String Json)
    (db db' : Store) (o : BaseOrderMG) (h : db.mg_orders = db'.mg_orders) :
    (processMGOrder ms c db o).mg_orders = (processMGOrder ms c db' o).mg_orders := by
  unfold processMGOrder
  split
  · exact h
  · split
    · simp [updateOrderMG, h]
    · exact h

/-- A provider-C step's effect on `jm_orders` depends only on `jm_orders`. -/
theorem processJMOrder_jm_congr (js : List String) (c : String → String → Except String Json)
    (db db' : Store) (o : BaseOrderJM) (h : db.jm_orders = db'.jm_orders) :
    (processJMOrder js c db o).jm_orders = (processJMOrder js c db' o).jm_orders := by
  unfold processJMOrder
  split
  · exact h
  · split
    · simp [updateOrderJM, h]
    · exact h

/-! ## Claim theorems -/

/-- C10: a request body containing the key `"test"` short-circuits: the endpoint
returns the 200 success reply echoing the test value, with no validation, no
adapter call, no store write and no notification — for every body shape and
every adapter behaviour. -/
theorem test_key_short_circuit (adapters : AdapterOracles) (db : Store)
    (kvs : List (String × Json)) (v : Json)
    (h : Json.lookupKey kvs "test" = some v) :
    skyshop_api adapters db (Json.obj kvs) =
      (db, [], ApiResult.response 200 (Json.obj [("status", Json.s "success"),
        ("message", Json.s "testing request successfully"),
        ("data", Json.obj [("test", v)])])) := by
  simp [skyshop_api, h]

/-- Fully closed evaluation of `test_key_short_circuit`: a body whose only key
is `"test"` (so every required field is absent) still gets the echo reply. -/
theorem test_key_short_circuit_witness :
    skyshop_api adaptersFail emptyStore (Json.obj [("test", Json.s "ping")]) =
      (emptyStore, [], ApiResult.response 200 (Json.obj [("status", Json.s "success"),
        ("message", Json.s "testing request successfully"),
        ("data", Json.obj [("test", Json.s "ping")])])) :=
  test_key_short_circuit adaptersFail emptyStore [("test", Json.s "ping")] (Json.s "ping") rfl

/-- C4: an unrecognized `service_code` is a pure routing error: no adapter is
invoked, no notification is sent, the store is untouched, and the caller gets
the 400 `"Invalid service code"` response. -/
theorem invalid_service_code_no_adapter_no_write (adapters : AdapterOracles) (db : Store)
    (service_code product_code : String) (user_id zone_id email quantity price : Json)
    (product_name : String) (h : service_code ∉ (["VP", "MG", "JM"] : List String)) :
    service_create_order adapters db service_code product_code user_id zone_id email
      quantity price product_name = (db, [], SvcReturn.http 400 invalidServiceCodeContent) := by
  simp only [List.mem_cons, List.not_mem_nil, or_false, not_or] at h
  obtain ⟨h1, h2, h3⟩ := h
  simp [service_create_order, h1, h2, h3]

/-- Closed evaluation of `invalid_service_code_no_adapter_no_write` at the
concrete unknown code `"XX"`. -/
theorem invalid_service_code_witness :
    service_create_order adaptersFail emptyStore "XX" "123" (Json.s "u1") (Json.s "z1")
      (Json.s "e@x.com") (Json.i 1) (Json.s "10.00") "Gift Card"
      = (emptyStore, [], SvcReturn.http 400 invalidServiceCodeContent) :=
  invalid_service_code_no_adapter_no_write adaptersFail emptyStore "XX" "123" (Json.s "u1")
    (Json.s "z1") (Json.s "e@x.com") (Json.i 1) (Json.s "10.00") "Gift Card" (by decide)

/-- C6: once routing recognizes the `service_code`, the event trace is exactly
the operator notification followed by the adapter invocation — the notification
comes first and is emitted for every adapter behaviour, including one whose
`create_order` raises or rejects. -/
theorem notification_before_adapter_unconditional (adapters : AdapterOracles) (db : Store)
    (service_code product_code : String) (user_id zone_id email quantity price : Json)
    (product_name : String) (h : service_code ∈ (["VP", "MG", "JM"] : List String)) :
    (service_create_order adapters db service_code product_code user_id zone_id
      email quantity price product_name).2.1
      = [Event.notify (newOrderMessage (serviceNameOf service_code) product_name
          user_id quantity price), Event.adapterCreate service_code] := by
  simp only [List.mem_cons, List.not_mem_nil, or_false] at h
  rcases h with h | h | h <;> subst h <;> simp [service_create_order, serviceNameOf]

/-- Closed evaluation of `notification_before_adapter_unconditional` with an
adapter oracle that raises: the notification is still first in the trace. -/
theorem notification_before_adapter_witness :
    (service_create_order adaptersFail emptyStore "MG" "123" (Json.s "u1")
      (Json.s "z1") (Json.s "e@x.com") (Json.i 1) (Json.s "10.00") "Gift Card").2.1
      = [Event.notify (newOrderMessage (serviceNameOf "MG") "Gift Card"
          (Json.s "u1") (Json.i 1) (Json.s "10.00")), Event.adapterCreate "MG"] :=
  notification_before_adapter_unconditional adaptersFail emptyStore "MG" "123" (Json.s "u1")
    (Json.s "z1") (Json.s "e@x.com") (Json.i 1) (Json.s "10.00") "Gift Card" (by decide)

/-- C8: an HTTP 200 reply whose business discriminator is not the provider's
success value (A: `result` not `True`, B: `status` not `True`, C: `code` not
`"APPLY_SUCCESS"`) makes each creation helper return the warning result
carrying the raw payload, with the store untouched. -/
theorem provider_rejection_returns_warning_no_persist (db : Store) (resp : HttpResponse)
    (user_id zone_id email : String) (quantity : Int) (price product : String)
    (order_id message_id : String) :
    (resp.status_code = 200 → ∀ r, resp.body.getKey "result" = some r → pyEqTrue r = false →
      request_creating_order_vp db resp user_id zone_id email quantity price product
        = (db, CreateResult.warning "order creation failed" resp.body))
    ∧ (resp.status_code = 200 → ∀ s, resp.body.getKey "status" = some s → pyEqTrue s = false →
      request_creating_order_mg db resp user_id zone_id email quantity price product
        = (db, Except.ok (CreateResult.warning "order creation failed" resp.body)))
    ∧ (resp.status_code = 200 → ∀ c, resp.body.getKey "code" = some c →
        c ≠ Json.s "APPLY_SUCCESS" →
      request_creating_order_jm db resp order_id message_id user_id zone_id email quantity
        price product = (db, CreateResult.warning "order creation failed" resp.body)) := by
  refine ⟨?_, ?_, ?_⟩
  · intro h200 r hr hfalse
    simp [request_creating_order_vp, h200, hr, hfalse]
  · intro h200 s hs hfalse
    simp [request_creating_order_mg, h200, hs, hfalse]
  · intro h200 c hc hne
    rcases c with _ | bv | n | cs | l | l
    · simp [request_creating_order_jm, h200, hc]
    · simp [request_creating_order_jm, h200, hc]
    · simp [request_creating_order_jm, h200, hc]
    · have hcs : cs ≠ "APPLY_SUCCESS" := fun he => hne (by rw [he])
      simp [request_creating_order_jm, h200, hc, hcs]
    · simp [request_creating_order_jm, h200, hc]
    · simp [request_creating_order_jm, h200, hc]

/-- Closed evaluation of `provider_rejection_returns_warning_no_persist`: the
provider-A helper on a 200 reply with `result: false` returns the warning
result and writes no row. -/
theorem provider_rejection_witness :
    request_creating_order_vp emptyStore ⟨200, Json.obj [("result", Json.b false),
      ("message", Json.s "insufficient balance")]⟩ "u1" "z1" "e@x.com" 1 "10.00" "Gems"
      = (emptyStore, CreateResult.warning "order creation failed"
          (Json.obj [("result", Json.b false), ("message", Json.s "insufficient balance")])) :=
  (provider_rejection_returns_warning_no_persist emptyStore
    ⟨200, Json.obj [("result", Json.b false), ("message", Json.s "insufficient balance")]⟩
    "u1" "z1" "e@x.com" 1 "10.00" "Gems" "o" "m").1 rfl (Json.b false) rfl rfl

/-- C1, counterexample: the store does not enforce one row per handle — two
`createOrderVP` calls with the same `order_id` leave two rows for that handle
(there is no uniqueness constraint in `models.py` and `createOrderVP` is a
plain insert). -/
theorem createOrderVP_duplicate_handle_two_rows :
    countVP (createOrderVP (createOrderVP emptyStore "u1" "z1" 1 "10.00" "Gems"
      "VIPAYMENT" "VP-1" "a@b.c" "waiting" "details") "u1" "z1" 1 "10.00" "Gems"
      "VIPAYMENT" "VP-1" "a@b.c" "waiting" "details") "VP-1" = 2 := by decide

/-- C1, amended: each create inserts exactly one row for its own handle and
leaves every other handle's row count unchanged (for providers A/B keyed by
`order_id`, for provider C keyed by `(order_id, message_id)`); so a handle
holds exactly one row precisely when it was created exactly once — the store
itself never deduplicates. -/
theorem createOrder_inserts_exactly_one_row_for_handle (db : Store)
    (u z : String) (q : Int) (pr prod api oid mid em st det : String) :
    (countVP (createOrderVP db u z q pr prod api oid em st det) oid = countVP db oid + 1
     ∧ ∀ g, g ≠ oid → countVP (createOrderVP db u z q pr prod api oid em st det) g
        = countVP db g)
    ∧ (countMG (createOrderMG db u z q pr prod api oid em st det) oid = countMG db oid + 1
     ∧ ∀ g, g ≠ oid → countMG (createOrderMG db u z q pr prod api oid em st det) g
        = countMG db g)
    ∧ (countJM (createOrderJM db u z q pr prod api oid mid em st det) oid mid
        = countJM db oid mid + 1
     ∧ ∀ g h, ¬(g = oid ∧ h = mid) →
        countJM (createOrderJM db u z q pr prod api oid mid em st det) g h
          = countJM db g h) := by
  refine ⟨⟨?_, ?_⟩, ⟨?_, ?_⟩, ?_, ?_⟩
  · simp [countVP, createOrderVP, List.filter_append]
  · intro g hg
    simp [countVP, createOrderVP, List.filter_append, Ne.symm hg]
  · simp [countMG, createOrderMG, List.filter_append]
  · intro g hg
    simp [countMG, createOrderMG, List.filter_append, Ne.symm hg]
  · simp [countJM, createOrderJM, List.filter_append]
  · intro g h hgh
    have : ¬(oid = g ∧ mid = h) := fun ⟨h1, h2⟩ => hgh ⟨h1.symm, h2.symm⟩
    simp [countJM, createOrderJM, List.filter_append, this]

/-- Closed evaluation of `createOrder_inserts_exactly_one_row_for_handle` on a
store already holding one provider-A row. -/
theorem createOrder_one_row_witness :
    (countVP (createOrderVP storeVP0
      "u1" "z1" 1 "10.00" "Gems" "VIPAYMENT" "VP-1" "a@b.c" "waiting" "det") "VP-1" = 1)
    ∧ (countVP (createOrderVP storeVP0
      "u1" "z1" 1 "10.00" "Gems" "VIPAYMENT" "VP-1" "a@b.c" "waiting" "det") "VP-0" = 1)
    ∧ (countMG (createOrderMG storeMG0
      "u1" "z1" 1 "10.00" "Gems" "MOOGOLD" "MG-1" "a@b.c" "processing" "det") "MG-1" = 1)
    ∧ (countMG (createOrderMG storeMG0
      "u1" "z1" 1 "10.00" "Gems" "MOOGOLD" "MG-1" "a@b.c" "processing" "det") "MG-9" = 1) := by
  have h := createOrder_inserts_exactly_one_row_for_handle
    storeVP0 "u1" "z1" 1 "10.00" "Gems" "VIPAYMENT" "VP-1" "m1" "a@b.c" "waiting" "det"
  have h2 := createOrder_inserts_exactly_one_row_for_handle
    storeMG0 "u1" "z1" 1 "10.00" "Gems" "MOOGOLD" "MG-1" "m1" "a@b.c" "processing" "det"
  exact ⟨by rw [h.1.1]; decide, by rw [h.1.2 "VP-0" (by decide)]; decide,
    by rw [h2.2.1.1]; decide, by rw [h2.2.1.2 "MG-9" (by decide)]; decide⟩

/-- C9: two provider-C orders with the same `order_id` but different
`message_id` values are two distinct rows after their two creates, and an
`updateOrderJM` keyed by `(order_id, mid)` leaves every row whose `message_id`
differs from `mid` exactly as it was. -/
theorem jm_orders_distinct_by_message_id (db : Store) (u z : String) (q : Int)
    (pr prod api oid mid mid' em st det em' st' det' : String)
    (stU detU : Option String) (i : Nat) (hne : mid ≠ mid') :
    (∃ r1 ∈ (createOrderJM (createOrderJM db u z q pr prod api oid mid em st det)
        u z q pr prod api oid mid' em' st' det').jm_orders,
     ∃ r2 ∈ (createOrderJM (createOrderJM db u z q pr prod api oid mid em st det)
        u z q pr prod api oid mid' em' st' det').jm_orders,
       r1 ≠ r2 ∧ r1.order_id = oid ∧ r1.message_id = mid
         ∧ r2.order_id = oid ∧ r2.message_id = mid')
    ∧ ∀ (h1 : i < db.jm_orders.length)
        (h2 : i < (updateOrderJM db oid mid stU detU).jm_orders.length),
        (db.jm_orders.get ⟨i, h1⟩).message_id ≠ mid →
        (updateOrderJM db oid mid stU detU).jm_orders.get ⟨i, h2⟩
          = db.jm_orders.get ⟨i, h1⟩ := by
  constructor
  · simp only [createOrderJM, List.mem_append, List.mem_singleton]
    refine ⟨_, Or.inl (Or.inr rfl), _, Or.inr rfl, ?_, rfl, rfl, rfl, rfl⟩
    intro hcontra
    exact hne (congrArg BaseOrderJM.message_id hcontra)
  · intro h1 h2 hmsg
    simp only [List.get_eq_getElem] at hmsg ⊢
    simp only [updateOrderJM, List.getElem_map]
    exact if_neg (fun hc => hmsg hc.2)

/-- Closed evaluation of `jm_orders_distinct_by_message_id`: updating the
`("J1", "m2")` row leaves the `("J1", "m1")` row untouched. -/
theorem jm_update_frame_witness :
    (updateOrderJM storeJM2 "J1" "m2" (some "completed") (some "nd")).jm_orders.get
      ⟨0, by decide⟩ = storeJM2.jm_orders.get ⟨0, by decide⟩ :=
  (jm_orders_distinct_by_message_id storeJM2 "u" "z" 1 "p" "pr" "JOLLYMAX" "J1" "m2" "m1"
    "e" "s" "d" "e2" "s2" "d2" (some "completed") (some "nd") 0 (by decide)).2
    (by decide) (by decide) (by decide)

/-- C3: when the status extracted from a check response (by the provider's
field path) is not in that provider's accepted vocabulary, processing that
order issues no update: the store is returned unchanged — for each of the
three providers. -/
theorem unknown_status_is_noop (vs ms js : List String) :
    (∀ (check : String → Except String Json) (db : Store) (o : BaseOrderVP)
       (d : Json) (st : String),
       check o.order_id = Except.ok d → vpExtractedStatus d = some (Json.s st) → st ∉ vs →
       processVPOrder vs check db o = db)
    ∧ (∀ (check : String → Except String Json) (db : Store) (o : BaseOrderMG)
       (d : Json) (st : String),
       check o.order_id = Except.ok d → mgExtractedStatus d = some (Json.s st) → st ∉ ms →
       processMGOrder ms check db o = db)
    ∧ (∀ (check : String → String → Except String Json) (db : Store) (o : BaseOrderJM)
       (d : Json) (st : String),
       check o.order_id o.message_id = Except.ok d →
       jmExtractedStatus d = some (Json.s st) → st ∉ js →
       processJMOrder js check db o = db) := by
  refine ⟨?_, ?_, ?_⟩
  · intro check db o d st hc hex hnot
    have hdec : vpExtractDecision vs d = none := by
      unfold vpExtractDecision
      split
      · split
        · rw [hex]; simp [hnot]
        · rfl
      · rfl
    simp [processVPOrder, hc, hdec]
  · intro check db o d st hc hex hnot
    have hdec : mgExtractDecision ms d = none := by
      unfold mgExtractDecision
      rw [hex]
      simp [hnot]
    simp [processMGOrder, hc, hdec]
  · intro check db o d st hc hex hnot
    have hdec : jmExtractDecision js d = none := by
      unfold jmExtractDecision
      rw [hex]
      simp [hnot]
    simp [processJMOrder, hc, hdec]

/-- Closed evaluation of `unknown_status_is_noop`: a provider-B response with
`order_status: "refunded"`, not in the accepted list, leaves the store as is. -/
theorem unknown_status_noop_witness :
    processMGOrder ["processing", "completed"]
      (fun _ => Except.ok (Json.obj [("order_status", Json.s "refunded")]))
      storeMG0 mgRow0 = storeMG0 :=
  (unknown_status_is_noop [] ["processing", "completed"] []).2.1
    (fun _ => Except.ok (Json.obj [("order_status", Json.s "refunded")]))
    storeMG0 mgRow0 (Json.obj [("order_status", Json.s "refunded")]) "refunded"
    rfl rfl (by decide)

/-- C5, counterexample: a request carrying `Input`, `Zone_ID` and `Email` but
whose first product lacks the required `quantity` field is rejected with
message `"missing product parameters"`, not `"missing parameters"` — so not
every missing required field yields the `"missing parameters"` message. -/
theorem missing_quantity_message_counterexample :
    skyshop_api adaptersFail emptyStore bodyMissingQuantity
      = (emptyStore, [], ApiResult.response 400
          (validationErrorContent "missing product parameters" bodyMissingQuantity))
    ∧ "missing product parameters" ≠ "missing parameters" :=
  ⟨rfl, by decide⟩

/-- C5, amended: a request (without the `"test"` key) missing `Input`,
`Zone_ID` or `Email` is answered with the 400 `"missing parameters"` response;
one missing a product-level required field (`name`, `quantity` or `price`) is
answered with the 400 `"missing product parameters"` response; in both cases
the store is untouched, no adapter is invoked and no notification is sent. -/
theorem missing_fields_rejected_without_side_effects (adapters : AdapterOracles)
    (db : Store) (kvs pkvs fkvs : List (String × Json)) (restp : List Json)
    (name_str : String)
    (hnotest : Json.lookupKey kvs "test" = none) :
    (¬(pyTruthy ((Json.lookupKey kvs "Input").getD Json.null)
        ∧ pyTruthy ((Json.lookupKey kvs "Zone_ID").getD Json.null)
        ∧ pyTruthy ((Json.lookupKey kvs "Email").getD Json.null)) →
      skyshop_api adapters db (Json.obj kvs)
        = (db, [], ApiResult.response 400
            (validationErrorContent "missing parameters" (Json.obj kvs))))
    ∧ (pyTruthy ((Json.lookupKey kvs "Input").getD Json.null) →
       pyTruthy ((Json.lookupKey kvs "Zone_ID").getD Json.null) →
       pyTruthy ((Json.lookupKey kvs "Email").getD Json.null) →
       Json.lookupKey kvs "payment" = some (Json.obj pkvs) →
       Json.lookupKey pkvs "products" = some (Json.arr (Json.obj fkvs :: restp)) →
       ¬(pyTruthy ((Json.lookupKey fkvs "name").getD Json.null)
          ∧ pyTruthy ((Json.lookupKey fkvs "quantity").getD Json.null)
          ∧ pyTruthy ((Json.lookupKey fkvs "price").getD Json.null)) →
       skyshop_api adapters db (Json.obj kvs)
        = (db, [], ApiResult.response 400
            (validationErrorContent "missing product parameters" (Json.obj kvs))))
    ∧ (pyTruthy ((Json.lookupKey kvs "Input").getD Json.null) →
       pyTruthy ((Json.lookupKey kvs "Zone_ID").getD Json.null) →
       pyTruthy ((Json.lookupKey kvs "Email").getD Json.null) →
       Json.lookupKey kvs "payment" = some (Json.obj pkvs) →
       pyTruthy ((Json.lookupKey pkvs "products").getD (Json.arr [])) = false →
       skyshop_api adapters db (Json.obj kvs)
        = (db, [], ApiResult.response 400
            (validationErrorContent "missing products" (Json.obj kvs))))
    ∧ (pyTruthy ((Json.lookupKey kvs "Input").getD Json.null) →
       pyTruthy ((Json.lookupKey kvs "Zone_ID").getD Json.null) →
       pyTruthy ((Json.lookupKey kvs "Email").getD Json.null) →
       Json.lookupKey kvs "payment" = some (Json.obj pkvs) →
       Json.lookupKey pkvs "products" = some (Json.arr (Json.obj fkvs :: restp)) →
       Json.lookupKey fkvs "name" = some (Json.s name_str) →
       pyTruthy ((Json.lookupKey fkvs "name").getD Json.null) →
       pyTruthy ((Json.lookupKey fkvs "quantity").getD Json.null) →
       pyTruthy ((Json.lookupKey fkvs "price").getD Json.null) →
       (name_str.splitOn "+").length < 3 →
       skyshop_api adapters db (Json.obj kvs)
        = (db, [], ApiResult.response 400
            (validationErrorContent "missing product info" (Json.obj kvs)))) := by
  refine ⟨?_, ?_, ?_, ?_⟩
  · intro h
    simp only [skyshop_api, hnotest]
    rw [if_pos h]
  · intro h1 h2 h3 hpay hprods hmiss
    simp only [skyshop_api, hnotest, hpay, hprods]
    rw [if_neg (by simp [h1, h2, h3])]
    rw [if_neg (by simp [pyTruthy])]
    simp only [Option.getD_some]
    rw [if_pos hmiss]
  · intro h1 h2 h3 hpay hfalsy
    simp only [skyshop_api, hnotest, hpay]
    rw [if_neg (by simp [h1, h2, h3])]
    rw [if_pos (by simp [hfalsy])]
  · intro h1 h2 h3 hpay hprods hnstr hn hq hp hlen
    simp only [skyshop_api, hnotest, hpay, hprods]
    rw [if_neg (by simp [h1, h2, h3])]
    rw [if_neg (by simp [pyTruthy])]
    simp only [Option.getD_some]
    rw [if_neg (by simp [hn, hq, hp])]
    simp only [hnstr, Option.getD_some]
    rcases hsp : name_str.splitOn "+" with _ | ⟨a, rest1⟩
    · simp [hsp]
    · rcases rest1 with _ | ⟨b, rest2⟩
      · simp [hsp]
      · rcases rest2 with _ | ⟨c, rest3⟩
        · simp [hsp]
        · rw [hsp] at hlen
          simp at hlen
          exfalso
          omega

/-- Closed evaluation of `missing_fields_rejected_without_side_effects`: a body
missing `Email` gets the `"missing parameters"` reply with no side effects. -/
theorem missing_email_witness :
    skyshop_api adaptersFail emptyStore
      (Json.obj [("Input", Json.s "u1"), ("Zone_ID", Json.s "z1")])
      = (emptyStore, [], ApiResult.response 400 (validationErrorContent "missing parameters"
          (Json.obj [("Input", Json.s "u1"), ("Zone_ID", Json.s "z1")]))) :=
  (missing_fields_rejected_without_side_effects adaptersFail emptyStore
    [("Input", Json.s "u1"), ("Zone_ID", Json.s "z1")] [] [] [] "" rfl).1 (by decide)

/-- C7: provider isolation — the provider-B and provider-C tables end a sweep
in the same state whatever the provider-A check oracle does (in particular,
when it fails for every provider-A order), and for each of the three
providers an exception during a single order's check makes that order's step
a no-op while the fold continues with the remaining orders. -/
theorem provider_a_failure_isolated (vs ms js : List String)
    (mgCheck : String → Except String Json) (jmCheck : String → String → Except String Json)
    (db : Store) :
    (∀ vpCheck vpCheck' : String → Except String Json,
       (checkOrderStatusSweep vs ms js vpCheck mgCheck jmCheck db).mg_orders
         = (checkOrderStatusSweep vs ms js vpCheck' mgCheck jmCheck db).mg_orders
       ∧ (checkOrderStatusSweep vs ms js vpCheck mgCheck jmCheck db).jm_orders
         = (checkOrderStatusSweep vs ms js vpCheck' mgCheck jmCheck db).jm_orders)
    ∧ (∀ (vpCheck : String → Except String Json) (d : Store) (o : BaseOrderVP)
         (rest : List BaseOrderVP) (e : String),
       vpCheck o.order_id = Except.error e →
       (o :: rest).foldl (processVPOrder vs vpCheck) d
         = rest.foldl (processVPOrder vs vpCheck) d)
    ∧ (∀ (mgc : String → Except String Json) (d : Store) (o : BaseOrderMG)
         (rest : List BaseOrderMG) (e : String),
       mgc o.order_id = Except.error e →
       (o :: rest).foldl (processMGOrder ms mgc) d
         = rest.foldl (processMGOrder ms mgc) d)
    ∧ (∀ (jmc : String → String → Except String Json) (d : Store) (o : BaseOrderJM)
         (rest : List BaseOrderJM) (e : String),
       jmc o.order_id o.message_id = Except.error e →
       (o :: rest).foldl (processJMOrder js jmc) d
         = rest.foldl (processJMOrder js jmc) d) := by
  refine ⟨?_, ?_, ?_, ?_⟩
  · intro vpCheck vpCheck'
    have hsw : ∀ vc : String → Except String Json,
        checkOrderStatusSweep vs ms js vc mgCheck jmCheck db
          = (getOrderStatusJM db "waiting").foldl (processJMOrder js jmCheck)
              ((getOrderStatusMG db "processing").foldl (processMGOrder ms mgCheck)
                ((getOrderStatusVP db "waiting").foldl (processVPOrder vs vc) db)) :=
      fun vc => rfl
    rw [hsw vpCheck, hsw vpCheck']
    have hvp : ∀ vc : String → Except String Json,
        ((getOrderStatusVP db "waiting").foldl (processVPOrder vs vc) db).mg_orders
          = db.mg_orders
        ∧ ((getOrderStatusVP db "waiting").foldl (processVPOrder vs vc) db).jm_orders
          = db.jm_orders :=
      fun vc => ⟨foldl_proj_eq _ _ (processVPOrder_mg_orders vs vc) _ db,
        foldl_proj_eq _ _ (processVPOrder_jm_orders vs vc) _ db⟩
    have hmg_eq : ∀ d d' : Store, d.mg_orders = d'.mg_orders →
        ((getOrderStatusMG db "processing").foldl (processMGOrder ms mgCheck) d).mg_orders
          = ((getOrderStatusMG db "processing").foldl (processMGOrder ms mgCheck) d').mg_orders :=
      fun d d' h => foldl_proj_congr _ _ (processMGOrder_mg_congr ms mgCheck) _ d d' h
    have hmg_jm : ∀ d : Store,
        ((getOrderStatusMG db "processing").foldl (processMGOrder ms mgCheck) d).jm_orders
          = d.jm_orders :=
      fun d => foldl_proj_eq _ _ (processMGOrder_jm_orders ms mgCheck) _ d
    have hjm_mg : ∀ d : Store,
        ((getOrderStatusJM db "waiting").foldl (processJMOrder js jmCheck) d).mg_orders
          = d.mg_orders :=
      fun d => foldl_proj_eq _ _ (processJMOrder_mg_orders js jmCheck) _ d
    have hjm_eq : ∀ d d' : Store, d.jm_orders = d'.jm_orders →
        ((getOrderStatusJM db "waiting").foldl (processJMOrder js jmCheck) d).jm_orders
          = ((getOrderStatusJM db "waiting").foldl (processJMOrder js jmCheck) d').jm_orders :=
      fun d d' h => foldl_proj_congr _ _ (processJMOrder_jm_congr js jmCheck) _ d d' h
    constructor
    · rw [hjm_mg, hjm_mg]
      exact hmg_eq _ _ ((hvp vpCheck).1.trans (hvp vpCheck').1.symm)
    · exact hjm_eq _ _ ((hmg_jm _).trans ((hvp vpCheck).2.trans
        ((hvp vpCheck').2.symm.trans (hmg_jm _).symm)))
  · intro vpCheck d o rest e hc
    rw [List.foldl_cons]
    have : processVPOrder vs vpCheck d o = d := by simp [processVPOrder, hc]
    rw [this]
  · intro mgc d o rest e hc
    rw [List.foldl_cons]
    have : processMGOrder ms mgc d o = d := by simp [processMGOrder, hc]
    rw [this]
  · intro jmc d o rest e hc
    rw [List.foldl_cons]
    have : processJMOrder js jmc d o = d := by simp [processJMOrder, hc]
    rw [this]

/-- Closed evaluation of `provider_a_failure_isolated`: an order whose check
raises contributes nothing to the fold, for each of the three providers. -/
theorem provider_isolation_witness :
    ([vpRow0] : List BaseOrderVP).foldl (processVPOrder ["waiting"] checkRaise) storeMG0
      = ([] : List BaseOrderVP).foldl (processVPOrder ["waiting"] checkRaise) storeMG0
    ∧ ([mgRow0] : List BaseOrderMG).foldl (processMGOrder ["processing"] checkRaise) storeMG0
      = ([] : List BaseOrderMG).foldl (processMGOrder ["processing"] checkRaise) storeMG0
    ∧ ([jmRowA] : List BaseOrderJM).foldl (processJMOrder ["waiting"] jmCheckRaise) storeJM2
      = ([] : List BaseOrderJM).foldl (processJMOrder ["waiting"] jmCheckRaise) storeJM2 :=
  ⟨(provider_a_failure_isolated ["waiting"] ["processing"] ["waiting"] mgCheckCompleted
      jmCheckRaise storeMG0).2.1 checkRaise storeMG0 vpRow0 [] "connect timeout" rfl,
   (provider_a_failure_isolated ["waiting"] ["processing"] ["waiting"] mgCheckCompleted
      jmCheckRaise storeMG0).2.2.1 checkRaise storeMG0 mgRow0 [] "connect timeout" rfl,
   (provider_a_failure_isolated ["waiting"] ["processing"] ["waiting"] mgCheckCompleted
      jmCheckRaise storeMG0).2.2.2 jmCheckRaise storeJM2 jmRowA [] "connect timeout" rfl⟩

/-- C2: for a provider-B order in the checkable `"processing"` state, when its
`check_order` call returns a response whose top-level `order_status` is a
string in the accepted vocabulary, the sweep persists exactly that status and
the serialized raw response into the order's row(s): after the sweep the
handle is still present and every `mg_orders` row carrying it holds the new
status and `json.dumps` of the response. -/
theorem mg_sweep_persists_accepted_status (vs ms js : List String)
    (vpCheck mgCheck : String → Except String Json)
    (jmCheck : String → String → Except String Json)
    (db : Store) (o : BaseOrderMG) (resp : Json) (st : String)
    (ho : o ∈ db.mg_orders) (hst : o.status = "processing")
    (hresp : mgCheck o.order_id = Except.ok resp)
    (hfield : resp.getKey "order_status" = some (Json.s st))
    (hmem : st ∈ ms) :
    (∃ r ∈ (checkOrderStatusSweep vs ms js vpCheck mgCheck jmCheck db).mg_orders,
       r.order_id = o.order_id)
    ∧ ∀ r ∈ (checkOrderStatusSweep vs ms js vpCheck mgCheck jmCheck db).mg_orders,
        r.order_id = o.order_id → r.status = st ∧ r.order_details = Json.dumps resp := by
  have hdec : mgExtractDecision ms resp = some (st, Json.dumps resp) := by
    unfold mgExtractDecision mgExtractedStatus
    rw [hfield]
    simp [hmem]
  have hestu : ∀ d : Store, ∀ r ∈ (updateOrderMG d o.order_id (some st)
      (some (Json.dumps resp))).mg_orders,
      r.order_id = o.order_id → r.status = st ∧ r.order_details = Json.dumps resp := by
    intro d r hr hrid
    simp only [updateOrderMG, List.mem_map] at hr
    obtain ⟨r0, hr0, rfl⟩ := hr
    by_cases hk : r0.order_id = o.order_id
    · simp [hk]
    · simp only [if_neg hk] at hrid ⊢
      exact absurd hrid hk
  have hestP : ∀ d : Store, ∀ r ∈ (processMGOrder ms mgCheck d o).mg_orders,
      r.order_id = o.order_id → r.status = st ∧ r.order_details = Json.dumps resp := by
    intro d
    have heq : processMGOrder ms mgCheck d o
        = updateOrderMG d o.order_id (some st) (some (Json.dumps resp)) := by
      simp [processMGOrder, hresp, hdec]
    rw [heq]
    exact hestu d
  have hpresP : ∀ (d : Store) (o' : BaseOrderMG),
      (∀ r ∈ d.mg_orders, r.order_id = o.order_id →
        r.status = st ∧ r.order_details = Json.dumps resp) →
      ∀ r ∈ (processMGOrder ms mgCheck d o').mg_orders,
        r.order_id = o.order_id → r.status = st ∧ r.order_details = Json.dumps resp := by
    intro d o' hP
    by_cases hkey : o'.order_id = o.order_id
    · have heq : processMGOrder ms mgCheck d o'
          = updateOrderMG d o'.order_id (some st) (some (Json.dumps resp)) := by
        simp [processMGOrder, hkey, hresp, hdec]
      rw [heq, hkey]
      exact hestu d
    · rcases hc : mgCheck o'.order_id with e | dta
      · simpa [processMGOrder, hc] using hP
      · rcases hd : mgExtractDecision ms dta with _ | p
        · simpa [processMGOrder, hc, hd] using hP
        · obtain ⟨st', d'⟩ := p
          have heq : processMGOrder ms mgCheck d o'
              = updateOrderMG d o'.order_id (some st') (some d') := by
            simp [processMGOrder, hc, hd]
          rw [heq]
          intro r hr hrid
          simp only [updateOrderMG, List.mem_map] at hr
          obtain ⟨r0, hr0, rfl⟩ := hr
          by_cases hk : r0.order_id = o'.order_id
          · simp only [if_pos hk] at hrid ⊢
            exact absurd (hk.symm.trans hrid) hkey
          · simp only [if_neg hk] at hrid ⊢
            exact hP r0 hr0 hrid
  have hQpres : ∀ (d : Store) (o' : BaseOrderMG),
      (∃ r ∈ d.mg_orders, r.order_id = o.order_id) →
      ∃ r ∈ (processMGOrder ms mgCheck d o').mg_orders, r.order_id = o.order_id := by
    intro d o' hex
    obtain ⟨r, hr, hrid⟩ := hex
    unfold processMGOrder
    split
    · exact ⟨r, hr, hrid⟩
    · split
      · simp only [updateOrderMG, List.mem_map]
        refine ⟨_, ⟨r, hr, rfl⟩, ?_⟩
        by_cases hk : r.order_id = o'.order_id
        · simp only [if_pos hk]
          exact hrid
        · simp only [if_neg hk]
          exact hrid
      · exact ⟨r, hr, hrid⟩
  have hsw : checkOrderStatusSweep vs ms js vpCheck mgCheck jmCheck db
      = (getOrderStatusJM db "waiting").foldl (processJMOrder js jmCheck)
          ((getOrderStatusMG db "processing").foldl (processMGOrder ms mgCheck)
            ((getOrderStatusVP db "waiting").foldl (processVPOrder vs vpCheck) db)) := rfl
  have hvp_mg : ((getOrderStatusVP db "waiting").foldl (processVPOrder vs vpCheck) db).mg_orders
      = db.mg_orders := foldl_proj_eq _ _ (processVPOrder_mg_orders vs vpCheck) _ db
  have hsnap : o ∈ getOrderStatusMG db "processing" := by
    simp [getOrderStatusMG, List.mem_filter, ho, hst]
  have hPall2 : ∀ r ∈ ((getOrderStatusMG db "processing").foldl (processMGOrder ms mgCheck)
      ((getOrderStatusVP db "waiting").foldl (processVPOrder vs vpCheck) db)).mg_orders,
      r.order_id = o.order_id → r.status = st ∧ r.order_details = Json.dumps resp :=
    foldl_pred_establish (processMGOrder ms mgCheck)
      (fun d => ∀ r ∈ d.mg_orders, r.order_id = o.order_id →
        r.status = st ∧ r.order_details = Json.dumps resp) o hpresP hestP _ _ hsnap
  have hQ1 : ∃ r ∈ ((getOrderStatusVP db "waiting").foldl
      (processVPOrder vs vpCheck) db).mg_orders, r.order_id = o.order_id := by
    rw [hvp_mg]
    exact ⟨o, ho, rfl⟩
  have hQ2 : ∃ r ∈ ((getOrderStatusMG db "processing").foldl (processMGOrder ms mgCheck)
      ((getOrderStatusVP db "waiting").foldl (processVPOrder vs vpCheck) db)).mg_orders,
      r.order_id = o.order_id :=
    foldl_pred_preserve (processMGOrder ms mgCheck)
      (fun d => ∃ r ∈ d.mg_orders, r.order_id = o.order_id) hQpres _ _ hQ1
  have hjm_mg : ∀ d : Store, ((getOrderStatusJM db "waiting").foldl
      (processJMOrder js jmCheck) d).mg_orders = d.mg_orders :=
    fun d => foldl_proj_eq _ _ (processJMOrder_mg_orders js jmCheck) _ d
  rw [hsw]
  constructor
  · rw [hjm_mg]
    exact hQ2
  · rw [hjm_mg]
    exact hPall2

/-- Closed evaluation of `mg_sweep_persists_accepted_status`: a one-order
store, a check answering `order_status: "completed"`, and a sweep that leaves
the row with status `"completed"` and the serialized response. -/
theorem mg_sweep_persists_witness :
    mgRowDone.status = "completed" ∧ mgRowDone.order_details = Json.dumps mgRespCompleted :=
  (mg_sweep_persists_accepted_status ["waiting"] ["processing", "completed"] ["waiting"]
    checkRaise mgCheckCompleted jmCheckRaise storeMG0 mgRow0 mgRespCompleted "completed"
    (by decide) rfl rfl rfl (by decide)).2 mgRowDone (by decide) rfl

end Pyrestile
